import Mathlib

/-!
Verification development for the wabackend-brain nudge delivery and
reconciliation engine.  The definitions below are a shallow embedding of the
Python source under app/: tables are lists of records, timestamps are integer
seconds (UTC epoch), `now` is passed explicitly, and every fallible or
stateful operation is a pure function on an explicit database state.
Provider network calls are modelled by passing their outcomes as parameters.
-/

namespace WABrain

/-- Python truthiness of an optional string (None and "" are falsy). -/
def truthy : Option String → Bool
  | none => false
  | some s => s ≠ ""

/-- Python `a or b` for an optional string `a` and default `b`. -/
def pyOr (a : Option String) (b : String) : String :=
  match a with
  | none => b
  | some s => if s = "" then b else s

/-- Whether the character list `needle` occurs at the start of `hay`. -/
def charsStartWith : List Char → List Char → Bool
  | _, [] => true
  | [], _ :: _ => false
  | a :: as, b :: bs => a == b && charsStartWith as bs

/-- Whether the character list `needle` occurs anywhere inside `hay`. -/
def charsContain : List Char → List Char → Bool
  | [], needle => needle.isEmpty
  | a :: t, needle => charsStartWith (a :: t) needle || charsContain t needle

/-- Python `needle in hay` on strings. -/
def strContains (hay needle : String) : Bool :=
  charsContain hay.data needle.data

-- ===========================================================================
-- Delivery engine (app/delivery_engine.py)
-- ===========================================================================

/-- DeliveryErrorType from app/delivery_engine.py. -/
inductive DeliveryErrorType
  | missingEnvVar
  | networkError
  | apiError
deriving DecidableEq

/-- DeliveryError from app/delivery_engine.py (exception carried as data). -/
structure DeliveryErr where
  errorType : DeliveryErrorType
  message : String
  statusCode : Option Int
deriving DecidableEq

/-- Python str() of an optional int (None prints as "None"). -/
def optIntStr : Option Int → String
  | none => "None"
  | some n => toString n

/-- DeliveryError._format_message: the text produced by str(e). -/
def DeliveryErr.formatMessage (e : DeliveryErr) : String :=
  match e.errorType with
  | .missingEnvVar => "Missing environment variable: " ++ e.message
  | .networkError => "Network error: " ++ e.message
  | .apiError => "API error (HTTP " ++ optIntStr e.statusCode ++ "): " ++ e.message

/-- SendResult from app/delivery_engine.py. -/
structure SendResult where
  messageId : String
  recipientWaId : Option String
  status : String
deriving DecidableEq

/-- Template constants hardcoded in app/delivery_engine.py. -/
def DEFAULT_TEMPLATE_NAME : String := "ai_followup"

/-- Named template body variable used for the main template. -/
def DEFAULT_TEMPLATE_PARAM_NAME : String := "followup_message"

/-- Fallback template used when the main template is rejected. -/
def FALLBACK_TEMPLATE_NAME : String := "hello_world"

/-- One named body parameter of a template send payload. -/
structure TemplateParam where
  paramType : String
  parameterName : String
  text : String
deriving DecidableEq

/-- One template network call: which template, with which body parameters. -/
structure TemplateCall where
  templateName : String
  parameters : List TemplateParam
deriving DecidableEq

/-- The fallback test in send_smart_nudge:
`e.status_code == 404 or "132001" in str(e)`. -/
def shouldFallback (e : DeliveryErr) : Bool :=
  e.statusCode == some 404 || strContains e.formatMessage "132001"

/-- Default body substituted in send_smart_nudge when the content is blank. -/
def EMPTY_CONTENT_DEFAULT : String :=
  "Hi! This is a follow-up message. Let me know if you have any questions."

/-- The first (main) template call built by the template branch of
send_smart_nudge, after the blank-content substitution. -/
def mainTemplateCall (content : String) : TemplateCall :=
  let c := if content = "" || content.trim = "" then EMPTY_CONTENT_DEFAULT else content
  ⟨DEFAULT_TEMPLATE_NAME, [⟨"text", DEFAULT_TEMPLATE_PARAM_NAME, c⟩]⟩

/-- Template branch of send_smart_nudge (outside the 24-hour window).
`outcome1` and `outcome2` are the provider's responses to the first and
(possible) second network call.  Returns the overall result together with
the list of template calls actually made. -/
def smartTemplateSend (content : String)
    (outcome1 outcome2 : Except DeliveryErr SendResult) :
    Except DeliveryErr SendResult × List TemplateCall :=
  let call1 := mainTemplateCall content
  match outcome1 with
  | .ok r => (.ok r, [call1])
  | .error e =>
    if shouldFallback e then
      (outcome2, [call1, ⟨FALLBACK_TEMPLATE_NAME, []⟩])
    else
      (.error e, [call1])

-- ===========================================================================
-- Data model (supabase tables, as used by the code)
-- ===========================================================================

/-- A row of the contacts table (fields the core logic reads). -/
structure Contact where
  id : Nat := 0
  userId : String := ""
  phoneNumber : Option String := none
deriving DecidableEq

/-- A row of the conversations table (fields the core logic reads/writes). -/
structure Conversation where
  id : Nat := 0
  userId : String := ""
  contactId : Option Nat := none
  subject : Option String := none
  channel : String := ""
  status : String := ""
  lastMessageAt : Option Int := none
  nextActionAt : Option Int := none
  autoApproved : Bool := false
  updatedAt : Option Int := none
  lastIncomingText : Option String := none
  lastOutgoingText : Option String := none
  lastFollowupAt : Option Int := none
deriving DecidableEq

/-- A row of the nudges table (fields the core logic reads/writes). -/
structure Nudge where
  id : Nat := 0
  userId : String := ""
  conversationId : Option Nat := none
  contactId : Option Nat := none
  channel : String := ""
  status : String := ""
  tone : String := ""
  draftContent : Option String := none
  approvedContent : Option String := none
  scheduledAt : Int := 0
  sentAt : Option Int := none
  maxEscalations : Int := 2
  recurrenceHours : Int := 24
  recurrenceMinutes : Option Int := none
deriving DecidableEq

/-- A row of the messages table (fields the core logic reads/writes). -/
structure Message where
  id : Nat := 0
  userId : String := ""
  conversationId : Option Nat := none
  contactId : Option Nat := none
  direction : String := ""
  channel : String := ""
  content : String := ""
  whatsappMessageId : Option String := none
  status : String := ""
  createdAt : Int := 0
  sentAt : Option Int := none
  deliveredAt : Option Int := none
  readAt : Option Int := none
  failedAt : Option Int := none
  errorCode : Option String := none
  errorMessage : Option String := none
  retryCount : Option Nat := none
  maxRetries : Option Nat := none
deriving DecidableEq

/-- The persistent store: four tables plus surrogate-id allocators. -/
structure DB where
  contacts : List Contact := []
  conversations : List Conversation := []
  nudges : List Nudge := []
  messages : List Message := []
  nextConvId : Nat := 1
  nextNudgeId : Nat := 1
  nextMsgId : Nat := 1
deriving DecidableEq

-- ===========================================================================
-- send_smart_nudge: text-vs-template selection (app/delivery_engine.py)
-- ===========================================================================

/-- Content used by send_smart_nudge:
`nudge.get("approved_content") or nudge.get("draft_content") or "Hello!"`. -/
def nudgeContent (n : Nudge) : String :=
  pyOr n.approvedContent (pyOr n.draftContent "Hello!")

/-- The greatest created_at among a list of message rows (none when empty):
the row returned by an `order created_at desc limit 1` query. -/
def maxCreatedAt : List Message → Option Int
  | [] => none
  | m :: rest => some (rest.foldl (fun acc x => max acc x.createdAt) m.createdAt)

/-- created_at of the newest incoming message of a conversation
(the `order created_at desc limit 1` query in send_smart_nudge). -/
def lastIncomingCreatedAt (db : DB) (cid : Nat) : Option Int :=
  maxCreatedAt (db.messages.filter
    (fun m => m.conversationId == some cid && m.direction == "incoming"))

/-- The can_send_text computation of send_smart_nudge: a conversation id is
present, an incoming message exists, and
`(now - last_msg_time).total_seconds() / 3600 < 24`, i.e. the newest
incoming message is strictly under 86400 seconds old. -/
def canSendText (db : DB) (n : Nudge) (now : Int) : Bool :=
  match n.conversationId with
  | none => false
  | some cid =>
    match lastIncomingCreatedAt db cid with
    | none => false
    | some t => now - t < 86400

/-- The message shape chosen for one dispatch. -/
inductive MsgShape
  | text (body : String)
  | template
deriving DecidableEq

/-- The text-vs-template decision made by send_smart_nudge. -/
def smartShape (db : DB) (n : Nudge) (now : Int) : MsgShape :=
  if canSendText db n now then .text (nudgeContent n) else .template

-- ===========================================================================
-- Status-receipt webhook (app/routers/webhooks.py, handle_status_update)
-- ===========================================================================

/-- One entry of the errors array of a failed-status callback from the
provider. -/
structure WebhookError where
  code : Option Int := none
  title : Option String := none
  msg : Option String := none
deriving DecidableEq

/-- error_code stored on the message: str(error.get("code", "unknown")). -/
def webhookErrorCode (e : WebhookError) : String :=
  match e.code with
  | some n => toString n
  | none => "unknown"

/-- error_message stored on the message:
error.get("title", "") or error.get("message", "Unknown error"). -/
def webhookErrorMessage (e : WebhookError) : String :=
  pyOr e.title (e.msg.getD "Unknown error")

/-- The column updates handle_status_update applies to a matching message
row: always the status column, plus the status-specific timestamp, plus
error details when the status is failed and the callback carries errors. -/
def applyStatusFields (st : String) (errors : List WebhookError) (now : Int)
    (m : Message) : Message :=
  { m with
    status := st,
    sentAt := if st = "sent" then some now else m.sentAt,
    deliveredAt := if st = "delivered" then some now else m.deliveredAt,
    readAt := if st = "read" then some now else m.readAt,
    failedAt := if st = "failed" then some now else m.failedAt,
    errorCode :=
      if st = "failed" then
        match errors with
        | [] => m.errorCode
        | e :: _ => some (webhookErrorCode e)
      else m.errorCode,
    errorMessage :=
      if st = "failed" then
        match errors with
        | [] => m.errorMessage
        | e :: _ => some (webhookErrorMessage e)
      else m.errorMessage }

/-- The row transformer of the messages-table update keyed on
whatsapp_message_id. -/
def updateMatching (mid st : String) (errors : List WebhookError) (now : Int)
    (m : Message) : Message :=
  if m.whatsappMessageId == some mid then applyStatusFields st errors now m
  else m

/-- The post-update cascade of handle_status_update: reads the first updated
row; on failed, marks sent nudges of its conversation failed; on delivered,
advances the conversation from pending/approved to awaiting. -/
def statusCascade (d : DB) (st mid : String) : DB :=
  match d.messages.find? (fun m => m.whatsappMessageId == some mid) with
  | none => d
  | some um =>
    match um.conversationId with
    | none => d
    | some cid =>
      if st = "failed" then
        { d with nudges := d.nudges.map (fun n =>
            if n.conversationId == some cid && n.status == "sent"
            then { n with status := "failed" } else n) }
      else if st = "delivered" then
        { d with conversations := d.conversations.map (fun c =>
            if c.id == cid && (c.status == "pending" || c.status == "approved")
            then { c with status := "awaiting" } else c) }
      else d

/-- handle_status_update from app/routers/webhooks.py: the status-receipt
half of the webhook POST handler. -/
def handleStatusUpdate (db : DB) (msgId statusText : Option String)
    (errors : List WebhookError) (now : Int) : DB :=
  match msgId, statusText with
  | some mid, some st =>
    if mid == "" || st == "" then db
    else
      statusCascade
        { db with messages := db.messages.map (updateMatching mid st errors now) }
        st mid
  | _, _ => db

-- ===========================================================================
-- Nudge creation (app/routers/nudges.py create_nudge,
-- app/scheduling_tools.py create_scheduled_nudge)
-- ===========================================================================

/-- A nudge status counting as non-terminal ("active"): pending, approved or
ready. -/
def isActiveNudge (n : Nudge) : Bool :=
  n.status == "pending" || n.status == "approved" || n.status == "ready"

/-- The nudges of the list that are active for a given conversation id. -/
def activeFor (ns : List Nudge) (cid : Nat) : List Nudge :=
  ns.filter (fun n => n.conversationId == some cid && isActiveNudge n)

/-- The one-active-nudge-per-conversation invariant. -/
def atMostOneActive (ns : List Nudge) : Prop :=
  ∀ cid : Nat, (activeFor ns cid).length ≤ 1

/-- Checkable form of the id-allocation well-formedness of one nudge row:
its conversation id (when present) was allocated before the counter. -/
def convIdBoundedB (bound : Nat) (n : Nudge) : Bool :=
  match n.conversationId with
  | none => true
  | some cid => cid < bound

/-- The conversation row inserted by create_nudge / create_scheduled_nudge. -/
def freshConversation (db : DB) (uid : String) (contactId : Nat)
    (subject channel : String) (now : Int) : Conversation :=
  { id := db.nextConvId, userId := uid, contactId := some contactId,
    subject := some subject, channel := channel,
    status := "pending", lastMessageAt := some now }

/-- The nudge row inserted by create_nudge (POST /nudges/), attached to the
conversation freshly created by the same request. -/
def createNudgeRecord (db : DB) (uid : String) (contactId : Nat)
    (content channel tone : String) (scheduledAt : Option Int)
    (maxEscalations recurrenceHours : Int) (recurrenceMinutes : Option Int)
    (now : Int) : Nudge :=
  { id := db.nextNudgeId, userId := uid, conversationId := some db.nextConvId,
    contactId := some contactId, channel := channel, status := "pending",
    tone := tone, draftContent := some content,
    scheduledAt := scheduledAt.getD (now + 86400),
    maxEscalations := maxEscalations, recurrenceHours := recurrenceHours,
    recurrenceMinutes := recurrenceMinutes }

/-- create_nudge from app/routers/nudges.py: inserts a fresh conversation
(status pending) and a new pending nudge attached to it. -/
def createNudge (db : DB) (uid : String) (contactId : Nat)
    (subject content channel tone : String) (scheduledAt : Option Int)
    (maxEscalations recurrenceHours : Int) (recurrenceMinutes : Option Int)
    (now : Int) : DB :=
  { db with
    conversations := db.conversations ++
      [freshConversation db uid contactId subject channel now],
    nudges := db.nudges ++
      [createNudgeRecord db uid contactId content channel tone scheduledAt
        maxEscalations recurrenceHours recurrenceMinutes now],
    nextConvId := db.nextConvId + 1, nextNudgeId := db.nextNudgeId + 1 }

/-- Default content built by create_scheduled_nudge from the subject. -/
def scheduledNudgeDefaultContent (subject : String) : String :=
  "Hi! Just following up on our conversation about \"" ++ subject ++
    "\". Let me know if you need anything!"

/-- The nudge row inserted by create_scheduled_nudge (scheduling tool),
attached to the conversation freshly created by the same call. -/
def createScheduledNudgeRecord (db : DB) (uid : String) (contactId : Nat)
    (channel tone content subject : String) (scheduledAt : Option Int)
    (recurrenceHours recurrenceMinutes maxFollowUps : Int) (now : Int) : Nudge :=
  { id := db.nextNudgeId, userId := uid, conversationId := some db.nextConvId,
    contactId := some contactId, channel := channel, status := "pending",
    tone := tone,
    draftContent := some (if content = ""
      then scheduledNudgeDefaultContent subject else content),
    scheduledAt := scheduledAt.getD (now + 86400),
    maxEscalations := maxFollowUps, recurrenceHours := recurrenceHours,
    recurrenceMinutes := if recurrenceMinutes > 0 then some recurrenceMinutes
      else none }

/-- create_scheduled_nudge from app/scheduling_tools.py: inserts a fresh
conversation (status pending) and a new pending nudge attached to it. -/
def createScheduledNudge (db : DB) (uid : String) (contactId : Nat)
    (channel tone content subject : String) (scheduledAt : Option Int)
    (recurrenceHours recurrenceMinutes maxFollowUps : Int) (now : Int) : DB :=
  { db with
    conversations := db.conversations ++
      [freshConversation db uid contactId subject channel now],
    nudges := db.nudges ++
      [createScheduledNudgeRecord db uid contactId channel tone content subject
        scheduledAt recurrenceHours recurrenceMinutes maxFollowUps now],
    nextConvId := db.nextConvId + 1, nextNudgeId := db.nextNudgeId + 1 }

-- ===========================================================================
-- Conversation updates and closing (app/database.py update_conversation,
-- app/routers/conversations.py close_conversation, webhook decision path)
-- ===========================================================================

/-- calculate_next_action_at from app/database.py: None stays None,
otherwise now plus after_hours hours. -/
def calculateNextActionAt (afterHours : Option Int) (now : Int) : Option Int :=
  afterHours.map (fun h => now + h * 3600)

/-- The optional column values passed to update_conversation. -/
structure UpdateConvArgs where
  status : Option String := none
  lastIncomingText : Option String := none
  lastOutgoingText : Option String := none
  nextActionAt : Option Int := none
  lastFollowupAt : Option Int := none

/-- The row transformer of update_conversation: updated_at is always
stamped; every other column changes only when a value was provided. -/
def applyConvUpdate (args : UpdateConvArgs) (now : Int) (c : Conversation) :
    Conversation :=
  { c with
    updatedAt := some now,
    status := args.status.getD c.status,
    lastIncomingText :=
      match args.lastIncomingText with
      | some t => some t
      | none => c.lastIncomingText,
    lastOutgoingText :=
      match args.lastOutgoingText with
      | some t => some t
      | none => c.lastOutgoingText,
    nextActionAt :=
      match args.nextActionAt with
      | some t => some t
      | none => c.nextActionAt,
    lastFollowupAt :=
      match args.lastFollowupAt with
      | some t => some t
      | none => c.lastFollowupAt }

/-- update_conversation from app/database.py (update keyed on id only). -/
def updateConversation (db : DB) (cid : Nat) (args : UpdateConvArgs)
    (now : Int) : DB :=
  { db with conversations := db.conversations.map (fun c =>
      if c.id == cid then applyConvUpdate args now c else c) }

/-- The decision application of the webhook inbound path (webhook.py
process_incoming_message / routers/webhooks.py process_with_ai_agent):
update the conversation from the decision output, then, when the action is
close, cancel the pending/approved nudges of the conversation. -/
def applyDecision (db : DB) (cid : Nat) (newStatus incomingText : String)
    (replyText : Option String) (afterHours : Option Int)
    (isCloseAction : Bool) (now : Int) : DB :=
  let db1 := updateConversation db cid
    { status := some newStatus,
      lastIncomingText := some incomingText,
      lastOutgoingText := replyText,
      nextActionAt := calculateNextActionAt afterHours now,
      lastFollowupAt := some now } now
  if isCloseAction then
    { db1 with nudges := db1.nudges.map (fun n =>
        if n.conversationId == some cid &&
            (n.status == "pending" || n.status == "approved")
        then { n with status := "cancelled" } else n) }
  else db1

/-- close_conversation POST /conversations/{id}/close from
app/routers/conversations.py: sets the status column to closed and touches
nothing else. -/
def closeConversation (db : DB) (cid : Nat) (uid : String) : DB :=
  { db with conversations := db.conversations.map (fun c =>
      if c.id == cid && c.userId == uid then { c with status := "closed" }
      else c) }

-- ===========================================================================
-- Scheduler dispatch (app/routers/cron.py process_single_nudge and
-- auto_send_nudge)
-- ===========================================================================

/-- Content sent by the cron auto_send_nudge message insert:
`nudge.get("approved_content") or nudge.get("draft_content") or ""`. -/
def nudgeContentCron (n : Nudge) : String :=
  pyOr n.approvedContent (pyOr n.draftContent "")

/-- Success path of cron auto_send_nudge after send_smart_nudge returns:
mark the nudge sent with sent_at and insert an outgoing sent Message row.
The conversation tables are not touched. -/
def autoSendSuccess (db : DB) (n : Nudge) (resultMsgId : String) (now : Int) :
    DB :=
  { db with
    nudges := db.nudges.map (fun m =>
      if m.id == n.id then { m with status := "sent", sentAt := some now }
      else m),
    messages := db.messages ++
      [{ id := db.nextMsgId, userId := n.userId,
         conversationId := n.conversationId, contactId := n.contactId,
         direction := "outgoing", channel := "whatsapp",
         content := nudgeContentCron n,
         whatsappMessageId := some resultMsgId, status := "sent",
         createdAt := now }],
    nextMsgId := db.nextMsgId + 1 }

/-- Failure path of cron auto_send_nudge (any exception, DeliveryError
included): mark the nudge failed. No Message row is inserted and nothing
else is persisted. -/
def autoSendFailure (db : DB) (nid : Nat) : DB :=
  { db with nudges := db.nudges.map (fun m =>
      if m.id == nid then { m with status := "failed" } else m) }

/-- The outcome the provider returns for one dispatched nudge. -/
inductive SendOutcome
  | ok (msgId : String)
  | err (e : DeliveryErr)
deriving DecidableEq

/-- The due-nudge query of a tick: status pending or approved and
scheduled_at at or before now. -/
def dueNudges (db : DB) (now : Int) : List Nudge :=
  db.nudges.filter (fun n =>
    (n.status == "pending" || n.status == "approved") && n.scheduledAt ≤ now)

/-- process_single_nudge of app/routers/cron.py for one due nudge: an
approved nudge (or a pending one whose user enabled auto_send) is
dispatched with its own provider outcome; otherwise the nudge is marked
ready for approval. -/
def processSingleNudge (db : DB) (n : Nudge) (autoSendPref : String → Bool)
    (outcome : Nudge → SendOutcome) (now : Int) : DB :=
  if n.status == "approved" || autoSendPref n.userId then
    match outcome n with
    | .ok mid => autoSendSuccess db n mid now
    | .err _ => autoSendFailure db n.id
  else
    { db with nudges := db.nudges.map (fun m =>
        if m.id == n.id then { m with status := "ready" } else m) }

/-- One loop iteration of the tick: process the nudge and count it. -/
def tickStep (autoSendPref : String → Bool) (outcome : Nudge → SendOutcome)
    (now : Int) (acc : DB × Nat) (n : Nudge) : DB × Nat :=
  (processSingleNudge acc.1 n autoSendPref outcome now, acc.2 + 1)

/-- One cron tick (POST /cron/process-nudges): processes every due nudge in
order, isolating per-nudge outcomes, and counts processed nudges. -/
def cronTick (db : DB) (autoSendPref : String → Bool)
    (outcome : Nudge → SendOutcome) (now : Int) : DB × Nat :=
  (dueNudges db now).foldl (tickStep autoSendPref outcome now) (db, 0)

/-- The first nudge row carrying a given id. -/
def findNudge (db : DB) (k : Nat) : Option Nudge :=
  db.nudges.find? (fun m => m.id == k)

-- ===========================================================================
-- Message retry (app/routers/messages.py retry_message)
-- ===========================================================================

/-- The WhatsApp integration row of the requesting user (access token and
phone number id, either possibly absent or empty). -/
structure Integration where
  accessToken : Option String := none
  phoneNumberId : Option String := none
deriving DecidableEq

/-- The outcome of the resend attempt: success, DeliveryError, or any other
exception. -/
inductive SendAttemptOutcome
  | ok (r : SendResult)
  | deliveryErr (e : DeliveryErr)
  | exc (s : String)
deriving DecidableEq

/-- How a retry request ends. -/
inductive RetryOutcome
  | notFound
  | notFailed
  | limitReached
  | noContact
  | noPhone
  | noIntegration
  | missingCreds
  | sent (mid : String)
  | sendFailed (e : DeliveryErr)
  | sendCrashed (s : String)
deriving DecidableEq

/-- Result of a retry request: response, post state, and how many provider
network calls were attempted. -/
structure RetryRes where
  outcome : RetryOutcome
  db : DB
  networkCalls : Nat
deriving DecidableEq

/-- `original_msg.get("max_retries", 3) or 3`: missing or zero become 3. -/
def maxRetriesOf (m : Message) : Nat :=
  match m.maxRetries with
  | none => 3
  | some k => if k = 0 then 3 else k

/-- `original_msg.get("retry_count", 0) or 0`. -/
def retryCountOf (m : Message) : Nat := m.retryCount.getD 0

/-- The can_retry flag of messages.py:
`(retry_count or 0) < (max_retries or 3)`. -/
def canRetryFlag (m : Message) : Bool := retryCountOf m < maxRetriesOf m

/-- error_code stored on a DeliveryError:
`str(e.status_code) if e.status_code else "unknown"`. -/
def errCodeStr (e : DeliveryErr) : String :=
  match e.statusCode with
  | some n => if n = 0 then "unknown" else toString n
  | none => "unknown"

/-- retry_message POST /messages/{id}/retry from app/routers/messages.py. -/
def retryMessage (db : DB) (mid : Nat) (uid : String)
    (integ : Option Integration) (sendOut : SendAttemptOutcome) (now : Int) :
    RetryRes :=
  match db.messages.find? (fun m => m.id == mid && m.userId == uid) with
  | none => ⟨.notFound, db, 0⟩
  | some msg =>
    if msg.status != "failed" then ⟨.notFailed, db, 0⟩
    else if maxRetriesOf msg ≤ retryCountOf msg then ⟨.limitReached, db, 0⟩
    else
      match msg.contactId with
      | none => ⟨.noContact, db, 0⟩
      | some cid =>
        match (db.contacts.find? (fun c => c.id == cid)).bind
            (fun c => c.phoneNumber) with
        | none => ⟨.noPhone, db, 0⟩
        | some phone =>
          if phone = "" then ⟨.noPhone, db, 0⟩
          else
            match integ with
            | none => ⟨.noIntegration, db, 0⟩
            | some ig =>
              if truthy ig.accessToken && truthy ig.phoneNumberId then
                match sendOut with
                | .ok r =>
                  ⟨.sent r.messageId,
                   { db with messages := db.messages.map (fun m =>
                       if m.id == mid then
                         { m with
                           status := "sent",
                           whatsappMessageId := some r.messageId,
                           retryCount := some (retryCountOf msg + 1),
                           sentAt := some now,
                           errorCode := none,
                           errorMessage := none,
                           failedAt := none }
                       else m) }, 1⟩
                | .deliveryErr e =>
                  ⟨.sendFailed e,
                   { db with messages := db.messages.map (fun m =>
                       if m.id == mid then
                         { m with
                           retryCount := some (retryCountOf msg + 1),
                           errorCode := some (errCodeStr e),
                           errorMessage := some e.message,
                           failedAt := some now }
                       else m) }, 1⟩
                | .exc s =>
                  ⟨.sendCrashed s,
                   { db with messages := db.messages.map (fun m =>
                       if m.id == mid then
                         { m with
                           retryCount := some (retryCountOf msg + 1),
                           errorMessage := some s,
                           failedAt := some now }
                       else m) }, 1⟩
              else ⟨.missingCreds, db, 0⟩

-- ===========================================================================
-- Nudge approval (app/routers/nudges.py approve_nudge)
-- ===========================================================================

/-- approve_nudge POST /nudges/{id}/approve: set the nudge approved and copy
draft_content into approved_content; when the nudge has a conversation,
also set that conversation's status to "approved" and auto_approved true. -/
def approveNudge (db : DB) (nid : Nat) (uid : String) : DB :=
  match db.nudges.find? (fun n => n.id == nid && n.userId == uid) with
  | none => db
  | some n0 =>
    let db1 : DB := { db with nudges := db.nudges.map (fun n =>
        if n.id == nid && n.userId == uid
        then { n with status := "approved", approvedContent := n0.draftContent }
        else n) }
    match n0.conversationId with
    | none => db1
    | some cid =>
      { db1 with conversations := db1.conversations.map (fun c =>
          if c.id == cid && c.userId == uid
          then { c with status := "approved", autoApproved := true }
          else c) }

/-- Modelled from the spec: the conversation status enum declared in §3 of
the specification (pending, awaiting, needs_response, promised, escalated,
closed). -/
def specConversationStatuses : List String :=
  ["pending", "awaiting", "needs_response", "promised", "escalated", "closed"]

-- ===========================================================================
-- Sample records used by witnesses
-- ===========================================================================

/-- Sample incoming message for witness states. -/
def msgW : Message :=
  { id := 1, userId := "u", conversationId := some 1, contactId := some 1,
    direction := "incoming", channel := "whatsapp", content := "hello",
    whatsappMessageId := some "wamid.in", status := "delivered",
    createdAt := 100 }

/-- Sample approved nudge for witness states. -/
def nudgeW : Nudge :=
  { id := 1, userId := "u", conversationId := some 1, contactId := some 1,
    channel := "whatsapp", status := "approved",
    draftContent := some "hi there", scheduledAt := 0 }

/-- Sample conversation for witness states. -/
def convW : Conversation :=
  { id := 1, userId := "u", contactId := some 1, status := "pending" }

/-- Sample database state for witness instantiations. -/
def dbW : DB :=
  { contacts := [{ id := 1, userId := "u", phoneNumber := some "+15550001111" }],
    conversations := [convW], nudges := [nudgeW], messages := [msgW],
    nextConvId := 2, nextNudgeId := 2, nextMsgId := 2 }

/-- Sample conversation with a pending next_action_at. -/
def convC9 : Conversation :=
  { id := 1, userId := "u", status := "awaiting", nextActionAt := some 500 }

/-- Sample state whose conversation has a pending next_action_at. -/
def dbC9 : DB := { conversations := [convC9] }

/-- Sample failed outgoing message eligible for retry. -/
def msgF : Message :=
  { id := 9, userId := "u", conversationId := some 1, contactId := some 1,
    direction := "outgoing", channel := "whatsapp", content := "retry me",
    status := "failed", createdAt := 50, failedAt := some 60,
    errorCode := some "400", errorMessage := some "boom",
    retryCount := some 0, maxRetries := some 3 }

/-- Sample database for the retry witness. -/
def dbR : DB :=
  { contacts := [{ id := 1, userId := "u", phoneNumber := some "+15550001111" }],
    conversations := [convW], messages := [msgF],
    nextConvId := 2, nextNudgeId := 1, nextMsgId := 10 }

/-- Sample WhatsApp integration carrying full credentials. -/
def integW : Integration :=
  { accessToken := some "tok", phoneNumberId := some "pn1" }

/-- Sample template-not-found provider error. -/
def err404 : DeliveryErr := ⟨.apiError, "template not found", some 404⟩

/-- Sample successful provider response. -/
def okRes : SendResult := ⟨"wamid.out", some "15550001111", "queued"⟩

-- ===========================================================================
-- Helper lemmas
-- ===========================================================================

theorem le_foldl_max (l : List Message) (init : Int) :
    init ≤ l.foldl (fun acc x => max acc x.createdAt) init := by
  induction l generalizing init with
  | nil => simp
  | cons a t ih =>
    simp only [List.foldl_cons]
    exact le_trans (le_max_left _ _) (ih (max init a.createdAt))

theorem mem_le_foldl_max (m : Message) :
    ∀ (l : List Message), m ∈ l → ∀ init : Int,
      m.createdAt ≤ l.foldl (fun acc x => max acc x.createdAt) init := by
  intro l
  induction l with
  | nil => intro hm; cases hm
  | cons a t ih =>
    intro hm init
    simp only [List.foldl_cons]
    rcases List.mem_cons.mp hm with h | h
    · subst h
      exact le_trans (le_max_right _ _) (le_foldl_max t _)
    · exact ih h _

theorem foldl_max_le (B : Int) :
    ∀ (l : List Message) (init : Int), init ≤ B →
      (∀ m ∈ l, m.createdAt ≤ B) →
      l.foldl (fun acc x => max acc x.createdAt) init ≤ B := by
  intro l
  induction l with
  | nil => intro init h0 _; simpa using h0
  | cons a t ih =>
    intro init h0 h
    simp only [List.foldl_cons]
    refine ih _ (max_le h0 (h a (List.mem_cons_self a t))) ?_
    intro m hm
    exact h m (List.mem_cons_of_mem a hm)

theorem map_eq_self {α : Type} (l : List α) (f : α → α) (h : ∀ x ∈ l, f x = x) :
    l.map f = l := by
  induction l with
  | nil => rfl
  | cons a t ih =>
    simp only [List.map_cons]
    rw [h a (List.mem_cons_self a t), ih (fun x hx => h x (List.mem_cons_of_mem a hx))]

theorem updateMatching_waid (mid st : String) (errors : List WebhookError)
    (now : Int) (m : Message) :
    (updateMatching mid st errors now m).whatsappMessageId =
      m.whatsappMessageId := by
  unfold updateMatching
  split <;> rfl

theorem updateMatching_convId (mid st : String) (errors : List WebhookError)
    (now : Int) (m : Message) :
    (updateMatching mid st errors now m).conversationId = m.conversationId := by
  unfold updateMatching
  split <;> rfl

theorem statusCascade_messages (d : DB) (st mid : String) :
    (statusCascade d st mid).messages = d.messages := by
  unfold statusCascade
  repeat' split
  all_goals rfl

theorem activeFilter_nil_at_bound (ns : List Nudge) (bound : Nat)
    (hwf : ∀ n ∈ ns, convIdBoundedB bound n = true) :
    ns.filter (fun n => n.conversationId == some bound && isActiveNudge n) = [] := by
  rw [List.filter_eq_nil_iff]
  intro n hn hpred
  have hb := hwf n hn
  rw [Bool.and_eq_true, beq_iff_eq] at hpred
  simp only [convIdBoundedB, hpred.1, decide_eq_true_eq] at hb
  omega

theorem atMostOneActive_insert_fresh (ns : List Nudge) (bound : Nat) (newN : Nudge)
    (hwf : ∀ n ∈ ns, convIdBoundedB bound n = true)
    (hfresh : newN.conversationId = some bound)
    (hinv : atMostOneActive ns) :
    atMostOneActive (ns ++ [newN]) := by
  intro cid
  unfold activeFor
  rw [List.filter_append]
  by_cases hcid : cid = bound
  · subst hcid
    rw [activeFilter_nil_at_bound ns cid hwf, List.nil_append]
    simpa using List.length_filter_le _ [newN]
  · have hne : bound ≠ cid := fun h => hcid h.symm
    have hbe : (bound == cid) = false := by simpa using hne
    have h2 : [newN].filter
        (fun n => n.conversationId == some cid && isActiveNudge n) = [] := by
      simp [List.filter, hfresh, hbe]
    rw [h2, List.append_nil]
    exact hinv cid

theorem activeFor_insert_fresh (ns : List Nudge) (bound : Nat) (newN : Nudge)
    (hwf : ∀ n ∈ ns, convIdBoundedB bound n = true)
    (hfresh : newN.conversationId = some bound)
    (hact : isActiveNudge newN = true) :
    activeFor (ns ++ [newN]) bound = [newN] := by
  unfold activeFor
  rw [List.filter_append, activeFilter_nil_at_bound ns bound hwf, List.nil_append]
  simp [List.filter, hfresh, hact]

theorem maxCreatedAt_mem_le (l : List Message) (m : Message) (hm : m ∈ l) :
    ∃ t, maxCreatedAt l = some t ∧ m.createdAt ≤ t := by
  cases l with
  | nil => cases hm
  | cons a rest =>
    refine ⟨_, rfl, ?_⟩
    rcases List.mem_cons.mp hm with h | h
    · subst h
      exact le_foldl_max rest _
    · exact mem_le_foldl_max m rest h _

theorem maxCreatedAt_le (l : List Message) (B : Int)
    (h : ∀ m ∈ l, m.createdAt ≤ B) :
    ∀ t, maxCreatedAt l = some t → t ≤ B := by
  cases l with
  | nil => intro t ht; cases ht
  | cons a rest =>
    intro t ht
    have ht' : rest.foldl (fun acc x => max acc x.createdAt) a.createdAt = t := by
      simpa [maxCreatedAt] using ht
    rw [← ht']
    exact foldl_max_le B rest a.createdAt (h a (List.mem_cons_self a rest))
      (fun m hm => h m (List.mem_cons_of_mem a hm))

theorem find_id_nodup (ns : List Nudge)
    (hnodup : (ns.map (fun n => n.id)).Nodup) (n : Nudge) (hn : n ∈ ns) :
    ns.find? (fun m => m.id == n.id) = some n := by
  induction ns with
  | nil => cases hn
  | cons a t ih =>
    obtain ⟨h1, h2⟩ := List.nodup_cons.mp hnodup
    rcases List.mem_cons.mp hn with h | h
    · subst h
      exact List.find?_cons_of_pos _ (by simp)
    · have hna : (a.id == n.id) = false := by
        refine beq_eq_false_iff_ne.mpr ?_
        intro he
        exact h1 (List.mem_map.mpr ⟨n, h, he.symm⟩)
      rw [List.find?_cons_of_neg _ (by simp [hna])]
      exact ih h2 h

theorem findNudge_map_self (ns : List Nudge) (tgt : Nat) (g : Nudge → Nudge)
    (hg : ∀ m, (g m).id = m.id) (r : Nudge)
    (hfind : ns.find? (fun m => m.id == tgt) = some r) :
    (ns.map (fun m => if m.id == tgt then g m else m)).find?
      (fun m => m.id == tgt) = some (g r) := by
  rw [List.find?_map]
  have hpf : ((fun m : Nudge => m.id == tgt) ∘
      (fun m => if m.id == tgt then g m else m)) =
      (fun m : Nudge => m.id == tgt) := by
    funext m
    simp only [Function.comp]
    split
    · rw [hg]
    · rfl
  rw [hpf, hfind]
  have hr : (r.id == tgt) = true := by simpa using List.find?_some hfind
  have hifr : (if (r.id == tgt) = true then g r else r) = g r := by
    rw [hr]
    simp
  show some (if (r.id == tgt) = true then g r else r) = some (g r)
  rw [hifr]

theorem findNudge_map_other (ns : List Nudge) (tgt k : Nat) (hne : tgt ≠ k)
    (g : Nudge → Nudge) (hg : ∀ m, (g m).id = m.id) :
    (ns.map (fun m => if m.id == tgt then g m else m)).find?
      (fun m => m.id == k) = ns.find? (fun m => m.id == k) := by
  rw [List.find?_map]
  have hpf : ((fun m : Nudge => m.id == k) ∘
      (fun m => if m.id == tgt then g m else m)) =
      (fun m : Nudge => m.id == k) := by
    funext m
    simp only [Function.comp]
    split
    · rw [hg]
    · rfl
  rw [hpf]
  cases hf : ns.find? (fun m => m.id == k) with
  | none => rfl
  | some m =>
    have hm : m.id = k := by simpa using List.find?_some hf
    have hmne : (m.id == tgt) = false := by simp [hm, Ne.symm hne]
    have hifm : (if (m.id == tgt) = true then g m else m) = m := by
      rw [hmne]
      simp
    show some (if (m.id == tgt) = true then g m else m) = some m
    rw [hifm]

theorem processSingle_preserves_findNudge (d : DB) (n : Nudge)
    (pref : String → Bool) (outcome : Nudge → SendOutcome) (now : Int)
    (k : Nat) (hne : n.id ≠ k) :
    findNudge (processSingleNudge d n pref outcome now) k = findNudge d k := by
  by_cases hcond : (n.status == "approved" || pref n.userId) = true
  · cases houtcome : outcome n with
    | ok mid =>
      have hps : processSingleNudge d n pref outcome now =
          autoSendSuccess d n mid now := by
        simp [processSingleNudge, hcond, houtcome]
      rw [hps]
      show (d.nudges.map _).find? _ = _
      exact findNudge_map_other d.nudges n.id k hne
        (fun m => { m with status := "sent", sentAt := some now })
        (fun m => rfl)
    | err e =>
      have hps : processSingleNudge d n pref outcome now =
          autoSendFailure d n.id := by
        simp [processSingleNudge, hcond, houtcome]
      rw [hps]
      show (d.nudges.map _).find? _ = _
      exact findNudge_map_other d.nudges n.id k hne
        (fun m => { m with status := "failed" }) (fun m => rfl)
  · rw [Bool.not_eq_true] at hcond
    have hps : processSingleNudge d n pref outcome now =
        { d with nudges := d.nudges.map (fun m =>
            if m.id == n.id then { m with status := "ready" } else m) } := by
      simp [processSingleNudge, hcond]
    rw [hps]
    show (d.nudges.map _).find? _ = _
    exact findNudge_map_other d.nudges n.id k hne
      (fun m => { m with status := "ready" }) (fun m => rfl)

theorem processSingle_self_spec (d : DB) (n r : Nudge) (pref : String → Bool)
    (outcome : Nudge → SendOutcome) (now : Int)
    (hfind : findNudge d n.id = some r)
    (hcond : (n.status == "approved" || pref n.userId) = true) :
    (∀ e, outcome n = .err e →
      findNudge (processSingleNudge d n pref outcome now) n.id =
        some { r with status := "failed" }) ∧
    (∀ mid, outcome n = .ok mid →
      findNudge (processSingleNudge d n pref outcome now) n.id =
        some { r with status := "sent", sentAt := some now }) := by
  constructor
  · intro e houtcome
    have hps : processSingleNudge d n pref outcome now =
        autoSendFailure d n.id := by
      simp [processSingleNudge, hcond, houtcome]
    rw [hps]
    show (d.nudges.map _).find? _ = _
    exact findNudge_map_self d.nudges n.id
      (fun m => { m with status := "failed" }) (fun m => rfl) r hfind
  · intro mid houtcome
    have hps : processSingleNudge d n pref outcome now =
        autoSendSuccess d n mid now := by
      simp [processSingleNudge, hcond, houtcome]
    rw [hps]
    show (d.nudges.map _).find? _ = _
    exact findNudge_map_self d.nudges n.id
      (fun m => { m with status := "sent", sentAt := some now })
      (fun m => rfl) r hfind

theorem foldl_preserves_findNudge (pref : String → Bool)
    (outcome : Nudge → SendOutcome) (now : Int) (k : Nat) :
    ∀ (t : List Nudge), (∀ m ∈ t, m.id ≠ k) →
    ∀ acc : DB × Nat,
      findNudge (t.foldl (tickStep pref outcome now) acc).1 k =
        findNudge acc.1 k := by
  intro t
  induction t with
  | nil => intro _ acc; rfl
  | cons b u ih =>
    intro hall acc
    simp only [List.foldl_cons]
    rw [ih (fun m hm => hall m (List.mem_cons_of_mem b hm)) _]
    exact processSingle_preserves_findNudge _ _ _ _ _ _
      (hall b (List.mem_cons_self b u))

theorem tick_fold_spec (pref : String → Bool) (outcome : Nudge → SendOutcome)
    (now : Int) :
    ∀ (due : List Nudge) (acc : DB × Nat),
      (due.map (fun n => n.id)).Nodup →
      (∀ n ∈ due, findNudge acc.1 n.id = some n) →
      ((due.foldl (tickStep pref outcome now) acc).2 = acc.2 + due.length) ∧
      (∀ n ∈ due, (n.status == "approved" || pref n.userId) = true →
        (∀ e, outcome n = .err e →
          findNudge (due.foldl (tickStep pref outcome now) acc).1 n.id =
            some { n with status := "failed" }) ∧
        (∀ mid, outcome n = .ok mid →
          findNudge (due.foldl (tickStep pref outcome now) acc).1 n.id =
            some { n with status := "sent", sentAt := some now })) := by
  intro due
  induction due with
  | nil => intro acc _ _; exact ⟨rfl, by intro n hn; cases hn⟩
  | cons a t ih =>
    intro acc hnodup hfind
    obtain ⟨ha, ht⟩ := List.nodup_cons.mp hnodup
    have hfind_t : ∀ n ∈ t,
        findNudge (tickStep pref outcome now acc a).1 n.id = some n := by
      intro n hn
      have hne : a.id ≠ n.id := fun he =>
        ha (List.mem_map.mpr ⟨n, hn, he.symm⟩)
      have hstep : (tickStep pref outcome now acc a).1 =
          processSingleNudge acc.1 a pref outcome now := rfl
      rw [hstep, processSingle_preserves_findNudge _ _ _ _ _ _ hne]
      exact hfind n (List.mem_cons_of_mem a hn)
    obtain ⟨hcount, hrest⟩ := ih (tickStep pref outcome now acc a) ht hfind_t
    constructor
    · simp only [List.foldl_cons]
      rw [hcount]
      show acc.2 + 1 + t.length = acc.2 + (a :: t).length
      simp only [List.length_cons]
      omega
    · intro n hn hcond
      rcases List.mem_cons.mp hn with h | h
      · subst h
        have hpre : ∀ m ∈ t, m.id ≠ n.id := fun m hm he =>
          ha (List.mem_map.mpr ⟨m, hm, he⟩)
        have hself := processSingle_self_spec acc.1 n n pref outcome now
          (hfind n (List.mem_cons_self n t)) hcond
        constructor
        · intro e houtcome
          simp only [List.foldl_cons]
          rw [foldl_preserves_findNudge pref outcome now n.id t hpre _]
          exact hself.1 e houtcome
        · intro mid houtcome
          simp only [List.foldl_cons]
          rw [foldl_preserves_findNudge pref outcome now n.id t hpre _]
          exact hself.2 mid houtcome
      · exact hrest n h hcond

-- ===========================================================================
-- Claim theorems
-- ===========================================================================

/-- C4: on every dispatch through send_smart_nudge, if the nudge's
conversation has an incoming message strictly newer than 24 hours
(86400 seconds), the selected shape is free text carrying the nudge's
approved-or-draft content; if the nudge has no conversation, or every
incoming message of the conversation is at least 24 hours old (including
the case of no incoming message at all), the selected shape is template. -/
theorem selector_window_correct (db : DB) (n : Nudge) (now : Int) :
    (∀ cid, n.conversationId = some cid →
      (∃ m ∈ db.messages, m.conversationId = some cid ∧
        m.direction = "incoming" ∧ now - m.createdAt < 86400) →
      smartShape db n now = .text (nudgeContent n))
    ∧
    ((n.conversationId = none ∨
      (∃ cid, n.conversationId = some cid ∧
        ∀ m ∈ db.messages, m.conversationId = some cid →
          m.direction = "incoming" → 86400 ≤ now - m.createdAt)) →
      smartShape db n now = .template) := by
  constructor
  · rintro cid hcid ⟨m, hm, hc, hd, hlt⟩
    have hmem : m ∈ db.messages.filter
        (fun x => x.conversationId == some cid && x.direction == "incoming") := by
      rw [List.mem_filter]
      exact ⟨hm, by simp [hc, hd]⟩
    obtain ⟨t, ht, hle⟩ := maxCreatedAt_mem_le _ m hmem
    have hlast : lastIncomingCreatedAt db cid = some t := ht
    have hcansend : canSendText db n now = true := by
      simp only [canSendText, hcid, hlast, decide_eq_true_eq]
      omega
    simp [smartShape, hcansend]
  · intro h
    have hcansend : canSendText db n now = false := by
      rcases h with hnone | ⟨cid, hcid, hall⟩
      · simp [canSendText, hnone]
      · cases ht : lastIncomingCreatedAt db cid with
        | none => simp [canSendText, hcid, ht]
        | some t =>
          have hb : t ≤ now - 86400 := by
            refine maxCreatedAt_le _ (now - 86400) ?_ t ht
            intro m hm
            rw [List.mem_filter] at hm
            obtain ⟨hm1, hm2⟩ := hm
            simp only [Bool.and_eq_true, beq_iff_eq] at hm2
            have := hall m hm1 hm2.1 hm2.2
            omega
          simp only [canSendText, hcid, ht, decide_eq_false_iff_not]
          omega
    simp [smartShape, hcansend]

/-- C4 witness: a conversation whose newest incoming message is 900 seconds
old selects free text with the nudge's draft content. -/
theorem selector_window_correct_witness :
    smartShape dbW nudgeW 1000 = .text "hi there" :=
  (selector_window_correct dbW nudgeW 1000).1 1 rfl
    ⟨msgW, show msgW ∈ [msgW] from List.mem_cons_self _ _, rfl, rfl, by decide⟩

/-- C5: inside the template branch of send_smart_nudge, a first-attempt
failure whose status is 404 or whose text contains provider code 132001
triggers exactly one immediate fallback call with the designated fallback
template and no parameters, and the overall result is whatever that second
call returns (a second failure propagates); any other error propagates
unchanged with no second call; in every case at most two calls are made and
at most one of them uses the fallback template. -/
theorem template_fallback_once (content : String) (e : DeliveryErr)
    (outcome2 : Except DeliveryErr SendResult) :
    (shouldFallback e = true →
      smartTemplateSend content (.error e) outcome2 =
        (outcome2, [mainTemplateCall content, ⟨FALLBACK_TEMPLATE_NAME, []⟩]))
    ∧ (shouldFallback e = false →
      smartTemplateSend content (.error e) outcome2 =
        (.error e, [mainTemplateCall content]))
    ∧ (∀ outcome1, (smartTemplateSend content outcome1 outcome2).2.length ≤ 2 ∧
        ((smartTemplateSend content outcome1 outcome2).2.filter
          (fun c => c.templateName == FALLBACK_TEMPLATE_NAME)).length ≤ 1) := by
  refine ⟨?_, ?_, ?_⟩
  · intro h
    simp [smartTemplateSend, h]
  · intro h
    simp [smartTemplateSend, h]
  · intro o1
    cases o1 with
    | ok r =>
      constructor
      · simp [smartTemplateSend]
      · simp [smartTemplateSend, mainTemplateCall, DEFAULT_TEMPLATE_NAME,
          FALLBACK_TEMPLATE_NAME]
    | error e2 =>
      by_cases h : shouldFallback e2 = true
      · constructor
        · simp [smartTemplateSend, h]
        · simp [smartTemplateSend, h, mainTemplateCall, DEFAULT_TEMPLATE_NAME,
            FALLBACK_TEMPLATE_NAME]
      · rw [Bool.not_eq_true] at h
        constructor
        · simp [smartTemplateSend, h]
        · simp [smartTemplateSend, h, mainTemplateCall, DEFAULT_TEMPLATE_NAME,
            FALLBACK_TEMPLATE_NAME]

/-- C5 witness: a 404 first failure followed by a successful fallback send
yields the fallback's result, with the second call parameterless. -/
theorem template_fallback_once_witness :
    shouldFallback err404 = true ∧
    smartTemplateSend "hi" (.error err404) (.ok okRes) =
      (.ok okRes, [mainTemplateCall "hi", ⟨FALLBACK_TEMPLATE_NAME, []⟩]) :=
  ⟨by decide, (template_fallback_once "hi" err404 (.ok okRes)).1 (by decide)⟩

/-- C1: for a status receipt carrying one of sent/delivered/read/failed and a
provider message id, handle_status_update updates every message row matching
that provider id with the new status and the corresponding timestamp (plus
error code/message on failed when the callback carries errors); on failed it
marks the sent nudges of the matched message's conversation failed; on
delivered it advances that conversation from pending/approved to awaiting;
and when no message matches the receipt leaves the state untouched. -/
theorem webhook_status_receipt_correct (db : DB) (mid st : String)
    (errors : List WebhookError) (now : Int)
    (hmid : mid ≠ "")
    (hst : st = "sent" ∨ st = "delivered" ∨ st = "read" ∨ st = "failed") :
    ((∀ m ∈ db.messages, m.whatsappMessageId ≠ some mid) →
      handleStatusUpdate db (some mid) (some st) errors now = db)
    ∧
    (∀ i, ∀ h : i < db.messages.length,
      (db.messages.get ⟨i, h⟩).whatsappMessageId = some mid →
      ∃ h2 : i < (handleStatusUpdate db (some mid) (some st) errors now).messages.length,
        ((handleStatusUpdate db (some mid) (some st) errors now).messages.get ⟨i, h2⟩).status = st ∧
        (st = "sent" →
          ((handleStatusUpdate db (some mid) (some st) errors now).messages.get ⟨i, h2⟩).sentAt = some now) ∧
        (st = "delivered" →
          ((handleStatusUpdate db (some mid) (some st) errors now).messages.get ⟨i, h2⟩).deliveredAt = some now) ∧
        (st = "read" →
          ((handleStatusUpdate db (some mid) (some st) errors now).messages.get ⟨i, h2⟩).readAt = some now) ∧
        (st = "failed" →
          ((handleStatusUpdate db (some mid) (some st) errors now).messages.get ⟨i, h2⟩).failedAt = some now) ∧
        (st = "failed" → ∀ e rest, errors = e :: rest →
          ((handleStatusUpdate db (some mid) (some st) errors now).messages.get ⟨i, h2⟩).errorCode = some (webhookErrorCode e) ∧
          ((handleStatusUpdate db (some mid) (some st) errors now).messages.get ⟨i, h2⟩).errorMessage = some (webhookErrorMessage e)))
    ∧
    (st = "failed" → ∀ m0,
      db.messages.find? (fun m => m.whatsappMessageId == some mid) = some m0 →
      ∀ cid, m0.conversationId = some cid →
      ∀ j, ∀ hj : j < db.nudges.length,
        (db.nudges.get ⟨j, hj⟩).conversationId = some cid →
        (db.nudges.get ⟨j, hj⟩).status = "sent" →
        ∃ hj2 : j < (handleStatusUpdate db (some mid) (some st) errors now).nudges.length,
          ((handleStatusUpdate db (some mid) (some st) errors now).nudges.get ⟨j, hj2⟩).id = (db.nudges.get ⟨j, hj⟩).id ∧
          ((handleStatusUpdate db (some mid) (some st) errors now).nudges.get ⟨j, hj2⟩).status = "failed")
    ∧
    (st = "delivered" → ∀ m0,
      db.messages.find? (fun m => m.whatsappMessageId == some mid) = some m0 →
      ∀ cid, m0.conversationId = some cid →
      ∀ j, ∀ hj : j < db.conversations.length,
        (db.conversations.get ⟨j, hj⟩).id = cid →
        ((db.conversations.get ⟨j, hj⟩).status = "pending" ∨
          (db.conversations.get ⟨j, hj⟩).status = "approved") →
        ∃ hj2 : j < (handleStatusUpdate db (some mid) (some st) errors now).conversations.length,
          ((handleStatusUpdate db (some mid) (some st) errors now).conversations.get ⟨j, hj2⟩).id = cid ∧
          ((handleStatusUpdate db (some mid) (some st) errors now).conversations.get ⟨j, hj2⟩).status = "awaiting") := by
  have hstne : st ≠ "" := by rcases hst with h | h | h | h <;> simp [h]
  have hbmid : (mid == "") = false := by simpa using hmid
  have hbst : (st == "") = false := by simpa using hstne
  have hmain : handleStatusUpdate db (some mid) (some st) errors now =
      statusCascade
        { db with messages := db.messages.map (updateMatching mid st errors now) }
        st mid := by
    simp [handleStatusUpdate, hbmid, hbst]
  have hmsgs : (handleStatusUpdate db (some mid) (some st) errors now).messages =
      db.messages.map (updateMatching mid st errors now) := by
    rw [hmain, statusCascade_messages]
  have hpcomp : ((fun m : Message => m.whatsappMessageId == some mid) ∘
        updateMatching mid st errors now) =
      (fun m : Message => m.whatsappMessageId == some mid) := by
    funext m
    simp [Function.comp, updateMatching_waid]
  refine ⟨?_, ?_, ?_, ?_⟩
  · intro hno
    have hmap : db.messages.map (updateMatching mid st errors now) = db.messages :=
      map_eq_self _ _ (fun m hm => by simp [updateMatching, hno m hm])
    have hfind : db.messages.find?
        (fun m => m.whatsappMessageId == some mid) = none :=
      List.find?_eq_none.mpr (fun m hm => by simp [hno m hm])
    rw [hmain, hmap]
    simp [statusCascade, hfind]
  · intro i h hmatch
    have hlen : i < (handleStatusUpdate db (some mid) (some st) errors now).messages.length := by
      rw [hmsgs, List.length_map]; exact h
    refine ⟨hlen, ?_⟩
    have hget : (handleStatusUpdate db (some mid) (some st) errors now).messages.get ⟨i, hlen⟩ =
        updateMatching mid st errors now (db.messages.get ⟨i, h⟩) := by
      simp only [List.get_eq_getElem]
      simp only [hmsgs, List.getElem_map]
    rw [hget]
    have hmatch2 : db.messages[i].whatsappMessageId = some mid := hmatch
    refine ⟨?_, ?_, ?_, ?_, ?_, ?_⟩
    · simp [updateMatching, hmatch2, applyStatusFields]
    · intro hs; simp [updateMatching, hmatch2, applyStatusFields, hs]
    · intro hs; simp [updateMatching, hmatch2, applyStatusFields, hs]
    · intro hs; simp [updateMatching, hmatch2, applyStatusFields, hs]
    · intro hs; simp [updateMatching, hmatch2, applyStatusFields, hs]
    · intro hs e rest herr
      simp [updateMatching, hmatch2, applyStatusFields, hs, herr]
  · intro hf m0 hfind cid hcid j hj hjc hjs
    subst hf
    have hfind1 : (db.messages.map (updateMatching mid "failed" errors now)).find?
        (fun m => m.whatsappMessageId == some mid) =
        some (updateMatching mid "failed" errors now m0) := by
      rw [List.find?_map, hpcomp, hfind]; rfl
    have hconv : (updateMatching mid "failed" errors now m0).conversationId = some cid := by
      rw [updateMatching_convId]; exact hcid
    have hnudges : (handleStatusUpdate db (some mid) (some "failed") errors now).nudges =
        db.nudges.map (fun n =>
          if n.conversationId == some cid && n.status == "sent"
          then { n with status := "failed" } else n) := by
      rw [hmain]
      simp [statusCascade, hfind1, hconv]
    have hlen : j < (handleStatusUpdate db (some mid) (some "failed") errors now).nudges.length := by
      rw [hnudges, List.length_map]; exact hj
    refine ⟨hlen, ?_⟩
    have hget : (handleStatusUpdate db (some mid) (some "failed") errors now).nudges.get ⟨j, hlen⟩ =
        (if (db.nudges.get ⟨j, hj⟩).conversationId == some cid &&
            (db.nudges.get ⟨j, hj⟩).status == "sent"
          then { db.nudges.get ⟨j, hj⟩ with status := "failed" }
          else db.nudges.get ⟨j, hj⟩) := by
      simp only [List.get_eq_getElem]
      simp only [hnudges, List.getElem_map]
    rw [hget]
    have hjc2 : db.nudges[j].conversationId = some cid := hjc
    have hjs2 : db.nudges[j].status = "sent" := hjs
    simp [hjc2, hjs2]
  · intro hd m0 hfind cid hcid j hj hjc hjs
    subst hd
    have hfind1 : (db.messages.map (updateMatching mid "delivered" errors now)).find?
        (fun m => m.whatsappMessageId == some mid) =
        some (updateMatching mid "delivered" errors now m0) := by
      rw [List.find?_map, hpcomp, hfind]; rfl
    have hconv : (updateMatching mid "delivered" errors now m0).conversationId = some cid := by
      rw [updateMatching_convId]; exact hcid
    have hconvs : (handleStatusUpdate db (some mid) (some "delivered") errors now).conversations =
        db.conversations.map (fun c =>
          if c.id == cid && (c.status == "pending" || c.status == "approved")
          then { c with status := "awaiting" } else c) := by
      rw [hmain]
      simp [statusCascade, hfind1, hconv]
    have hlen : j < (handleStatusUpdate db (some mid) (some "delivered") errors now).conversations.length := by
      rw [hconvs, List.length_map]; exact hj
    refine ⟨hlen, ?_⟩
    have hget : (handleStatusUpdate db (some mid) (some "delivered") errors now).conversations.get ⟨j, hlen⟩ =
        (if (db.conversations.get ⟨j, hj⟩).id == cid &&
            ((db.conversations.get ⟨j, hj⟩).status == "pending" ||
              (db.conversations.get ⟨j, hj⟩).status == "approved")
          then { db.conversations.get ⟨j, hj⟩ with status := "awaiting" }
          else db.conversations.get ⟨j, hj⟩) := by
      simp only [List.get_eq_getElem]
      simp only [hconvs, List.getElem_map]
    rw [hget]
    have hjc2 : db.conversations[j].id = cid := hjc
    rcases hjs with hjs | hjs
    · have hjs2 : db.conversations[j].status = "pending" := hjs
      simp [hjc2, hjs2]
    · have hjs2 : db.conversations[j].status = "approved" := hjs
      simp [hjc2, hjs2]

/-- C1 witness: a delivered receipt for the known provider message id of a
pending conversation advances that conversation to awaiting. -/
theorem webhook_status_receipt_correct_witness :
    ∃ h2 : 0 < (handleStatusUpdate dbW (some "wamid.in") (some "delivered") [] 5000).conversations.length,
      ((handleStatusUpdate dbW (some "wamid.in") (some "delivered") [] 5000).conversations.get ⟨0, h2⟩).id = 1 ∧
      ((handleStatusUpdate dbW (some "wamid.in") (some "delivered") [] 5000).conversations.get ⟨0, h2⟩).status = "awaiting" :=
  (webhook_status_receipt_correct dbW "wamid.in" "delivered" [] 5000
      (by decide) (Or.inr (Or.inl rfl))).2.2.2 rfl msgW (by decide) 1 rfl
    0 (by decide) (by decide) (Or.inl (by decide))

/-- C2: both nudge-creation operations (the HTTP create_nudge endpoint and
the scheduling tool create_scheduled_nudge) attach the new pending nudge to
a conversation created fresh by the same operation, so they preserve the
at-most-one-active-nudge-per-conversation invariant; no prior nudge belongs
to the new conversation (hence cancelling prior non-terminal nudges of that
conversation is vacuous), and afterwards the new nudge is the single active
nudge of its conversation. -/
theorem nudge_creation_single_active (db : DB) (uid : String) (contactId : Nat)
    (subject content channel tone : String) (scheduledAt : Option Int)
    (maxEscalations recurrenceHours recurrenceMinutes2 maxFollowUps : Int)
    (recurrenceMinutes : Option Int) (now : Int)
    (hwf : ∀ n ∈ db.nudges, convIdBoundedB db.nextConvId n = true)
    (hinv : atMostOneActive db.nudges) :
    atMostOneActive (createNudge db uid contactId subject content channel tone
      scheduledAt maxEscalations recurrenceHours recurrenceMinutes now).nudges
    ∧ atMostOneActive (createScheduledNudge db uid contactId channel tone
      content subject scheduledAt recurrenceHours recurrenceMinutes2
      maxFollowUps now).nudges
    ∧ (∀ n ∈ db.nudges, n.conversationId ≠ some db.nextConvId)
    ∧ activeFor (createNudge db uid contactId subject content channel tone
        scheduledAt maxEscalations recurrenceHours recurrenceMinutes now).nudges
        db.nextConvId =
      [createNudgeRecord db uid contactId content channel tone scheduledAt
        maxEscalations recurrenceHours recurrenceMinutes now]
    ∧ activeFor (createScheduledNudge db uid contactId channel tone content
        subject scheduledAt recurrenceHours recurrenceMinutes2 maxFollowUps
        now).nudges db.nextConvId =
      [createScheduledNudgeRecord db uid contactId channel tone content subject
        scheduledAt recurrenceHours recurrenceMinutes2 maxFollowUps now] := by
  refine ⟨?_, ?_, ?_, ?_, ?_⟩
  · exact atMostOneActive_insert_fresh db.nudges db.nextConvId _ hwf rfl hinv
  · exact atMostOneActive_insert_fresh db.nudges db.nextConvId _ hwf rfl hinv
  · intro n hn hc
    have hb := hwf n hn
    simp only [convIdBoundedB, hc, decide_eq_true_eq] at hb
    omega
  · exact activeFor_insert_fresh db.nudges db.nextConvId _ hwf rfl rfl
  · exact activeFor_insert_fresh db.nudges db.nextConvId _ hwf rfl rfl

/-- C2 witness: on a well-formed state already holding one active nudge,
creating a nudge keeps the invariant. -/
theorem nudge_creation_single_active_witness :
    (∀ n ∈ dbW.nudges, convIdBoundedB dbW.nextConvId n = true) ∧
    atMostOneActive (createNudge dbW "u" 1 "subj" "content" "whatsapp" "warm"
      none 2 24 none 0).nudges :=
  ⟨by decide,
    (nudge_creation_single_active dbW "u" 1 "subj" "content" "whatsapp" "warm"
      none 2 24 0 2 none 0 (by decide)
      (fun _ => List.length_filter_le _ _)).1⟩

/-- C3 counterexample: the HTTP close endpoint transitions the conversation
to closed but leaves its approved nudge untouched, so the claim that every
operation transitioning a conversation to closed cancels its
pending/approved nudges is false on the code. -/
theorem close_endpoint_counterexample :
    ((closeConversation dbW 1 "u").conversations.map (fun c => c.status) =
      ["closed"]) ∧
    ¬ (∀ n ∈ (closeConversation dbW 1 "u").nudges,
        n.conversationId = some 1 → n.status = "cancelled") := by
  decide

/-- C3 (amended): the webhook close-decision path cancels every
pending/approved nudge of the conversation; the HTTP close endpoint only
sets the conversation's status to closed and leaves every nudge untouched;
re-closing through the HTTP endpoint is a no-op. -/
theorem close_cancels_nudges_amended (db : DB) (cid : Nat) (uid : String)
    (incomingText : String) (replyText : Option String) (now : Int) :
    (∀ j, ∀ hj : j < db.nudges.length,
      (db.nudges.get ⟨j, hj⟩).conversationId = some cid →
      ((db.nudges.get ⟨j, hj⟩).status = "pending" ∨
        (db.nudges.get ⟨j, hj⟩).status = "approved") →
      ∃ hj2 : j < (applyDecision db cid "closed" incomingText replyText none
          true now).nudges.length,
        ((applyDecision db cid "closed" incomingText replyText none true
          now).nudges.get ⟨j, hj2⟩).status = "cancelled")
    ∧
    (∀ j, ∀ hj : j < db.conversations.length,
      (db.conversations.get ⟨j, hj⟩).id = cid →
      ∃ hj2 : j < (applyDecision db cid "closed" incomingText replyText none
          true now).conversations.length,
        ((applyDecision db cid "closed" incomingText replyText none true
          now).conversations.get ⟨j, hj2⟩).status = "closed")
    ∧
    ((closeConversation db cid uid).nudges = db.nudges)
    ∧
    (∀ j, ∀ hj : j < db.conversations.length,
      (db.conversations.get ⟨j, hj⟩).id = cid →
      (db.conversations.get ⟨j, hj⟩).userId = uid →
      ∃ hj2 : j < (closeConversation db cid uid).conversations.length,
        ((closeConversation db cid uid).conversations.get ⟨j, hj2⟩).status =
          "closed")
    ∧
    closeConversation (closeConversation db cid uid) cid uid =
      closeConversation db cid uid := by
  have hnudges : (applyDecision db cid "closed" incomingText replyText none
      true now).nudges =
      db.nudges.map (fun n =>
        if n.conversationId == some cid &&
            (n.status == "pending" || n.status == "approved")
        then { n with status := "cancelled" } else n) := rfl
  have hconvs : (applyDecision db cid "closed" incomingText replyText none
      true now).conversations =
      db.conversations.map (fun c =>
        if c.id == cid then
          applyConvUpdate
            { status := some "closed",
              lastIncomingText := some incomingText,
              lastOutgoingText := replyText,
              nextActionAt := calculateNextActionAt none now,
              lastFollowupAt := some now } now c
        else c) := rfl
  refine ⟨?_, ?_, ?_, ?_, ?_⟩
  · intro j hj hjc hjs
    have hlen : j < (applyDecision db cid "closed" incomingText replyText none
        true now).nudges.length := by
      rw [hnudges, List.length_map]; exact hj
    refine ⟨hlen, ?_⟩
    have hget : (applyDecision db cid "closed" incomingText replyText none true
        now).nudges.get ⟨j, hlen⟩ =
        (if (db.nudges.get ⟨j, hj⟩).conversationId == some cid &&
            ((db.nudges.get ⟨j, hj⟩).status == "pending" ||
              (db.nudges.get ⟨j, hj⟩).status == "approved")
          then { db.nudges.get ⟨j, hj⟩ with status := "cancelled" }
          else db.nudges.get ⟨j, hj⟩) := by
      simp only [List.get_eq_getElem]
      simp only [hnudges, List.getElem_map]
    rw [hget]
    have hjc2 : db.nudges[j].conversationId = some cid := hjc
    rcases hjs with hjs | hjs
    · have hjs2 : db.nudges[j].status = "pending" := hjs
      simp [hjc2, hjs2]
    · have hjs2 : db.nudges[j].status = "approved" := hjs
      simp [hjc2, hjs2]
  · intro j hj hjc
    have hlen : j < (applyDecision db cid "closed" incomingText replyText none
        true now).conversations.length := by
      rw [hconvs, List.length_map]; exact hj
    refine ⟨hlen, ?_⟩
    have hget : (applyDecision db cid "closed" incomingText replyText none true
        now).conversations.get ⟨j, hlen⟩ =
        (if (db.conversations.get ⟨j, hj⟩).id == cid then
          applyConvUpdate
            { status := some "closed",
              lastIncomingText := some incomingText,
              lastOutgoingText := replyText,
              nextActionAt := calculateNextActionAt none now,
              lastFollowupAt := some now } now (db.conversations.get ⟨j, hj⟩)
          else db.conversations.get ⟨j, hj⟩) := by
      simp only [List.get_eq_getElem]
      simp only [hconvs, List.getElem_map]
    rw [hget]
    have hjc2 : db.conversations[j].id = cid := hjc
    simp [hjc2, applyConvUpdate]
  · rfl
  · intro j hj hjc hju
    have hlen : j < (closeConversation db cid uid).conversations.length := by
      show j < (db.conversations.map _).length
      rw [List.length_map]; exact hj
    refine ⟨hlen, ?_⟩
    have hget : (closeConversation db cid uid).conversations.get ⟨j, hlen⟩ =
        (if (db.conversations.get ⟨j, hj⟩).id == cid &&
            (db.conversations.get ⟨j, hj⟩).userId == uid
          then { db.conversations.get ⟨j, hj⟩ with status := "closed" }
          else db.conversations.get ⟨j, hj⟩) := by
      simp only [List.get_eq_getElem]
      show (db.conversations.map _)[j] = _
      simp only [List.getElem_map]
    rw [hget]
    have hjc2 : db.conversations[j].id = cid := hjc
    have hju2 : db.conversations[j].userId = uid := hju
    simp [hjc2, hju2]
  · have hf : ∀ c : Conversation,
        (fun c : Conversation =>
          if c.id == cid && c.userId == uid then { c with status := "closed" }
          else c)
        ((fun c : Conversation =>
          if c.id == cid && c.userId == uid then { c with status := "closed" }
          else c) c) =
        (fun c : Conversation =>
          if c.id == cid && c.userId == uid then { c with status := "closed" }
          else c) c := by
      intro c
      by_cases h : (c.id == cid && c.userId == uid) = true
      · simp [h]
      · rw [Bool.not_eq_true] at h
        simp [h]
    show { db with conversations := (db.conversations.map _).map _ } =
      { db with conversations := db.conversations.map _ }
    rw [List.map_map]
    congr 1
    exact List.map_congr_left (fun c _ => hf c)

/-- C3 witness: the webhook close decision cancels the approved nudge of
the conversation being closed. -/
theorem close_cancels_nudges_amended_witness :
    ∃ h2 : 0 < (applyDecision dbW 1 "closed" "stop" (some "bye") none true
        9000).nudges.length,
      ((applyDecision dbW 1 "closed" "stop" (some "bye") none true
        9000).nudges.get ⟨0, h2⟩).status = "cancelled" :=
  (close_cancels_nudges_amended dbW 1 "u" "stop" (some "bye") 9000).1 0
    (by decide) (by decide) (Or.inr (by decide))

/-- C6 counterexample: a successful scheduler dispatch leaves the owning
conversation completely untouched — its status stays pending instead of
becoming awaiting, and last_message_at is not updated — so the claim's
conversation-update conjunct is false on the code. -/
theorem scheduler_success_counterexample :
    ((autoSendSuccess dbW nudgeW "wamid.x" 500).conversations =
      dbW.conversations) ∧
    ((autoSendSuccess dbW nudgeW "wamid.x" 500).conversations.map
      (fun c => c.status) = ["pending"]) ∧
    ¬ ((autoSendSuccess dbW nudgeW "wamid.x" 500).conversations.map
      (fun c => c.status) = ["awaiting"]) := by
  decide

/-- C6 (amended): on dispatch success the cron scheduler marks the nudge
sent with a sent_at stamp and appends an outgoing Message row with status
sent carrying the provider message id, but does not modify the conversations
table at all (no last_message_at update and no awaiting transition — those
happen only on the delivered receipt or the manual send endpoint); and for a
conversation with no inbound message ever, the Selector chooses a template
send. -/
theorem scheduler_success_amended (db : DB) (n : Nudge) (resultMsgId : String)
    (now : Int) :
    (∀ j, ∀ hj : j < db.nudges.length,
      (db.nudges.get ⟨j, hj⟩).id = n.id →
      ∃ hj2 : j < (autoSendSuccess db n resultMsgId now).nudges.length,
        ((autoSendSuccess db n resultMsgId now).nudges.get ⟨j, hj2⟩).status =
          "sent" ∧
        ((autoSendSuccess db n resultMsgId now).nudges.get ⟨j, hj2⟩).sentAt =
          some now)
    ∧
    (∃ msg, (autoSendSuccess db n resultMsgId now).messages =
        db.messages ++ [msg] ∧
      msg.direction = "outgoing" ∧ msg.status = "sent" ∧
      msg.conversationId = n.conversationId ∧
      msg.whatsappMessageId = some resultMsgId ∧
      msg.content = nudgeContentCron n)
    ∧
    ((autoSendSuccess db n resultMsgId now).conversations = db.conversations)
    ∧
    ((∀ m ∈ db.messages, m.direction ≠ "incoming") →
      smartShape db n now = .template) := by
  have hnudges : (autoSendSuccess db n resultMsgId now).nudges =
      db.nudges.map (fun m =>
        if m.id == n.id then { m with status := "sent", sentAt := some now }
        else m) := rfl
  refine ⟨?_, ?_, rfl, ?_⟩
  · intro j hj hid
    have hlen : j < (autoSendSuccess db n resultMsgId now).nudges.length := by
      rw [hnudges, List.length_map]; exact hj
    refine ⟨hlen, ?_⟩
    have hget : (autoSendSuccess db n resultMsgId now).nudges.get ⟨j, hlen⟩ =
        (if (db.nudges.get ⟨j, hj⟩).id == n.id
          then { db.nudges.get ⟨j, hj⟩ with
            status := "sent",
            sentAt := some now }
          else db.nudges.get ⟨j, hj⟩) := by
      simp only [List.get_eq_getElem]
      simp only [hnudges, List.getElem_map]
    rw [hget]
    have hid2 : db.nudges[j].id = n.id := hid
    simp [hid2]
  · exact ⟨_, rfl, rfl, rfl, rfl, rfl, rfl⟩
  · intro hnoin
    have hcansend : canSendText db n now = false := by
      cases hc : n.conversationId with
      | none => simp [canSendText, hc]
      | some cid =>
        have hfilter : db.messages.filter
            (fun m => m.conversationId == some cid &&
              m.direction == "incoming") = [] := by
          rw [List.filter_eq_nil_iff]
          intro m hm hp
          rw [Bool.and_eq_true, beq_iff_eq, beq_iff_eq] at hp
          exact hnoin m hm hp.2
        have hlast : lastIncomingCreatedAt db cid = none := by
          unfold lastIncomingCreatedAt
          rw [hfilter]
          rfl
        simp [canSendText, hc, hlast]
    simp [smartShape, hcansend]

/-- C6 witness: a successful dispatch of the sample approved nudge marks it
sent with the dispatch timestamp. -/
theorem scheduler_success_amended_witness :
    ∃ h2 : 0 < (autoSendSuccess dbW nudgeW "wamid.x" 500).nudges.length,
      ((autoSendSuccess dbW nudgeW "wamid.x" 500).nudges.get ⟨0, h2⟩).status =
        "sent" ∧
      ((autoSendSuccess dbW nudgeW "wamid.x" 500).nudges.get ⟨0, h2⟩).sentAt =
        some 500 :=
  (scheduler_success_amended dbW nudgeW "wamid.x" 500).1 0 (by decide)
    (by decide)

/-- C7 counterexample: a failed dispatch marks the nudge failed but inserts
no Message row at all — the messages table is untouched — so the claim's
failed-Message-row conjunct is false on the code. -/
theorem scheduler_failure_counterexample :
    ((autoSendFailure dbW 1).nudges.map (fun n => n.status) = ["failed"]) ∧
    ((autoSendFailure dbW 1).messages = dbW.messages) ∧
    ¬ (∃ m ∈ (autoSendFailure dbW 1).messages,
        m.direction = "outgoing" ∧ m.status = "failed") := by
  decide

/-- C7 (amended): on dispatch failure the cron scheduler marks the nudge
failed but persists no outgoing Message row (messages and conversations are
untouched); and per-nudge outcomes are isolated: a tick processes every due
nudge, and each dispatched due nudge's final record reflects its own
provider outcome regardless of the other nudges' failures. -/
theorem scheduler_failure_amended (db : DB) (pref : String → Bool)
    (outcome : Nudge → SendOutcome) (now : Int)
    (hnodup : (db.nudges.map (fun n => n.id)).Nodup) :
    (∀ nid, (autoSendFailure db nid).messages = db.messages ∧
      (autoSendFailure db nid).conversations = db.conversations) ∧
    (∀ nid, ∀ j, ∀ hj : j < db.nudges.length,
      (db.nudges.get ⟨j, hj⟩).id = nid →
      ∃ hj2 : j < (autoSendFailure db nid).nudges.length,
        ((autoSendFailure db nid).nudges.get ⟨j, hj2⟩).status = "failed") ∧
    ((cronTick db pref outcome now).2 = (dueNudges db now).length) ∧
    (∀ n ∈ dueNudges db now,
      (n.status == "approved" || pref n.userId) = true →
      (∀ e, outcome n = .err e →
        findNudge (cronTick db pref outcome now).1 n.id =
          some { n with status := "failed" }) ∧
      (∀ mid, outcome n = .ok mid →
        findNudge (cronTick db pref outcome now).1 n.id =
          some { n with status := "sent", sentAt := some now })) := by
  have hdn : ((dueNudges db now).map (fun n => n.id)).Nodup :=
    List.Nodup.sublist ((List.filter_sublist db.nudges).map _) hnodup
  have hfindall : ∀ n ∈ dueNudges db now, findNudge db n.id = some n := by
    intro n hn
    exact find_id_nodup db.nudges hnodup n (List.mem_filter.mp hn).1
  obtain ⟨hcount, hiso⟩ :=
    tick_fold_spec pref outcome now (dueNudges db now) (db, 0) hdn hfindall
  refine ⟨fun nid => ⟨rfl, rfl⟩, ?_, ?_, hiso⟩
  · intro nid j hj hid
    have hnudges : (autoSendFailure db nid).nudges =
        db.nudges.map (fun m =>
          if m.id == nid then { m with status := "failed" } else m) := rfl
    have hlen : j < (autoSendFailure db nid).nudges.length := by
      rw [hnudges, List.length_map]; exact hj
    refine ⟨hlen, ?_⟩
    have hget : (autoSendFailure db nid).nudges.get ⟨j, hlen⟩ =
        (if (db.nudges.get ⟨j, hj⟩).id == nid
          then { db.nudges.get ⟨j, hj⟩ with status := "failed" }
          else db.nudges.get ⟨j, hj⟩) := by
      simp only [List.get_eq_getElem]
      simp only [hnudges, List.getElem_map]
    rw [hget]
    have hid2 : db.nudges[j].id = nid := hid
    simp [hid2]
  · show ((dueNudges db now).foldl (tickStep pref outcome now) (db, 0)).2 =
      (dueNudges db now).length
    rw [hcount]
    simp

/-- C7 witness: on a state with one due approved nudge whose send fails,
the tick processes it andmarks it failed without inserting a Message row. -/
theorem scheduler_failure_amended_witness :
    ((cronTick dbW (fun _ => false) (fun _ => SendOutcome.err err404)
        100).2 = (dueNudges dbW 100).length) ∧
    findNudge (cronTick dbW (fun _ => false)
        (fun _ => SendOutcome.err err404) 100).1 nudgeW.id =
      some { nudgeW with status := "failed" } :=
  ⟨(scheduler_failure_amended dbW (fun _ => false)
      (fun _ => SendOutcome.err err404) 100 (by decide)).2.2.1,
   ((scheduler_failure_amended dbW (fun _ => false)
      (fun _ => SendOutcome.err err404) 100 (by decide)).2.2.2 nudgeW
      (by decide) (by decide)).1 err404 rfl⟩

/-- C8: a retry request is accepted only on a failed message; when the
stored retry_count has reached max_retries the request is rejected before
any network call and the record's can_retry flag is false; an accepted
retry (one that reaches the provider) makes exactly one network call and
increments retry_count by exactly one whatever the outcome; the prior
error_code/error_message/failed_at fields are cleared on success, while a
failed resend overwrites them with fresh error detail instead. -/
theorem retry_message_correct (db : DB) (mid : Nat) (uid : String)
    (integ : Option Integration) (sendOut : SendAttemptOutcome) (now : Int)
    (msg : Message)
    (hfind : db.messages.find? (fun m => m.id == mid && m.userId == uid) =
      some msg) :
    (msg.status ≠ "failed" →
      retryMessage db mid uid integ sendOut now = ⟨.notFailed, db, 0⟩)
    ∧
    (msg.status = "failed" → maxRetriesOf msg ≤ retryCountOf msg →
      retryMessage db mid uid integ sendOut now = ⟨.limitReached, db, 0⟩ ∧
      canRetryFlag msg = false)
    ∧
    (∀ cid phone ig,
      msg.status = "failed" →
      retryCountOf msg < maxRetriesOf msg →
      msg.contactId = some cid →
      (db.contacts.find? (fun c => c.id == cid)).bind (fun c => c.phoneNumber) =
        some phone →
      phone ≠ "" →
      integ = some ig →
      truthy ig.accessToken = true →
      truthy ig.phoneNumberId = true →
      (retryMessage db mid uid integ sendOut now).networkCalls = 1 ∧
      (∀ j, ∀ hj : j < db.messages.length,
        (db.messages.get ⟨j, hj⟩).id = mid →
        ∃ hj2 : j < (retryMessage db mid uid integ sendOut
            now).db.messages.length,
          ((retryMessage db mid uid integ sendOut now).db.messages.get
            ⟨j, hj2⟩).retryCount = some (retryCountOf msg + 1) ∧
          (∀ r, sendOut = .ok r →
            ((retryMessage db mid uid integ sendOut now).db.messages.get
              ⟨j, hj2⟩).status = "sent" ∧
            ((retryMessage db mid uid integ sendOut now).db.messages.get
              ⟨j, hj2⟩).errorCode = none ∧
            ((retryMessage db mid uid integ sendOut now).db.messages.get
              ⟨j, hj2⟩).errorMessage = none ∧
            ((retryMessage db mid uid integ sendOut now).db.messages.get
              ⟨j, hj2⟩).failedAt = none) ∧
          (∀ e, sendOut = .deliveryErr e →
            ((retryMessage db mid uid integ sendOut now).db.messages.get
              ⟨j, hj2⟩).errorCode = some (errCodeStr e) ∧
            ((retryMessage db mid uid integ sendOut now).db.messages.get
              ⟨j, hj2⟩).errorMessage = some e.message ∧
            ((retryMessage db mid uid integ sendOut now).db.messages.get
              ⟨j, hj2⟩).failedAt = some now) ∧
          (∀ s, sendOut = .exc s →
            ((retryMessage db mid uid integ sendOut now).db.messages.get
              ⟨j, hj2⟩).errorMessage = some s ∧
            ((retryMessage db mid uid integ sendOut now).db.messages.get
              ⟨j, hj2⟩).failedAt = some now ∧
            ((retryMessage db mid uid integ sendOut now).db.messages.get
              ⟨j, hj2⟩).errorCode = (db.messages.get ⟨j, hj⟩).errorCode))) := by
  refine ⟨?_, ?_, ?_⟩
  · intro hne
    have hb : (msg.status != "failed") = true := bne_iff_ne.mpr hne
    simp [retryMessage, hfind, hb]
  · intro h1 h2
    have hb : (msg.status != "failed") = false := by simp [h1]
    constructor
    · simp [retryMessage, hfind, hb, h2]
    · simp only [canRetryFlag, decide_eq_false_iff_not]
      omega
  · intro cid phone ig h1 h2 h3 h4 h5 h6 h7 h8
    have hb : (msg.status != "failed") = false := by simp [h1]
    have hnle : ¬(maxRetriesOf msg ≤ retryCountOf msg) := not_le.mpr h2
    cases sendOut with
    | ok r =>
      have hmain : retryMessage db mid uid integ (.ok r) now =
          ⟨.sent r.messageId,
           { db with messages := db.messages.map (fun m =>
               if m.id == mid then
                 { m with
                   status := "sent",
                   whatsappMessageId := some r.messageId,
                   retryCount := some (retryCountOf msg + 1),
                   sentAt := some now,
                   errorCode := none,
                   errorMessage := none,
                   failedAt := none }
               else m) }, 1⟩ := by
        simp [retryMessage, hfind, hb, hnle, h3, h4, h5, h6, h7, h8]
      refine ⟨by rw [hmain], ?_⟩
      intro j hj hid
      have hlen : j < (retryMessage db mid uid integ (.ok r)
          now).db.messages.length := by
        rw [hmain]
        show j < (db.messages.map _).length
        rw [List.length_map]; exact hj
      refine ⟨hlen, ?_⟩
      have hid2 : db.messages[j].id = mid := hid
      have hget : (retryMessage db mid uid integ (.ok r)
          now).db.messages.get ⟨j, hlen⟩ =
          { db.messages.get ⟨j, hj⟩ with
            status := "sent",
            whatsappMessageId := some r.messageId,
            retryCount := some (retryCountOf msg + 1),
            sentAt := some now,
            errorCode := none,
            errorMessage := none,
            failedAt := none } := by
        simp only [List.get_eq_getElem, hmain, List.getElem_map]
        simp [hid2]
      rw [hget]
      refine ⟨rfl, fun r2 hr2 => ⟨rfl, rfl, rfl, rfl⟩, ?_, ?_⟩
      · intro e he; exact absurd he (by simp)
      · intro s hs; exact absurd hs (by simp)
    | deliveryErr e =>
      have hmain : retryMessage db mid uid integ (.deliveryErr e) now =
          ⟨.sendFailed e,
           { db with messages := db.messages.map (fun m =>
               if m.id == mid then
                 { m with
                   retryCount := some (retryCountOf msg + 1),
                   errorCode := some (errCodeStr e),
                   errorMessage := some e.message,
                   failedAt := some now }
               else m) }, 1⟩ := by
        simp [retryMessage, hfind, hb, hnle, h3, h4, h5, h6, h7, h8]
      refine ⟨by rw [hmain], ?_⟩
      intro j hj hid
      have hlen : j < (retryMessage db mid uid integ (.deliveryErr e)
          now).db.messages.length := by
        rw [hmain]
        show j < (db.messages.map _).length
        rw [List.length_map]; exact hj
      refine ⟨hlen, ?_⟩
      have hid2 : db.messages[j].id = mid := hid
      have hget : (retryMessage db mid uid integ (.deliveryErr e)
          now).db.messages.get ⟨j, hlen⟩ =
          { db.messages.get ⟨j, hj⟩ with
            retryCount := some (retryCountOf msg + 1),
            errorCode := some (errCodeStr e),
            errorMessage := some e.message,
            failedAt := some now } := by
        simp only [List.get_eq_getElem, hmain, List.getElem_map]
        simp [hid2]
      rw [hget]
      refine ⟨rfl, ?_, fun e2 he2 => ?_, ?_⟩
      · intro r hr; exact absurd hr (by simp)
      · have he3 : e2 = e := by
          have := he2
          simp at this
          exact this.symm
        subst he3
        exact ⟨rfl, rfl, rfl⟩
      · intro s hs; exact absurd hs (by simp)
    | exc s =>
      have hmain : retryMessage db mid uid integ (.exc s) now =
          ⟨.sendCrashed s,
           { db with messages := db.messages.map (fun m =>
               if m.id == mid then
                 { m with
                   retryCount := some (retryCountOf msg + 1),
                   errorMessage := some s,
                   failedAt := some now }
               else m) }, 1⟩ := by
        simp [retryMessage, hfind, hb, hnle, h3, h4, h5, h6, h7, h8]
      refine ⟨by rw [hmain], ?_⟩
      intro j hj hid
      have hlen : j < (retryMessage db mid uid integ (.exc s)
          now).db.messages.length := by
        rw [hmain]
        show j < (db.messages.map _).length
        rw [List.length_map]; exact hj
      refine ⟨hlen, ?_⟩
      have hid2 : db.messages[j].id = mid := hid
      have hget : (retryMessage db mid uid integ (.exc s)
          now).db.messages.get ⟨j, hlen⟩ =
          { db.messages.get ⟨j, hj⟩ with
            retryCount := some (retryCountOf msg + 1),
            errorMessage := some s,
            failedAt := some now } := by
        simp only [List.get_eq_getElem, hmain, List.getElem_map]
        simp [hid2]
      rw [hget]
      refine ⟨rfl, ?_, ?_, fun s2 hs2 => ?_⟩
      · intro r hr; exact absurd hr (by simp)
      · intro e he; exact absurd he (by simp)
      · have hs3 : s2 = s := by
          have := hs2
          simp at this
          exact this.symm
        subst hs3
        exact ⟨rfl, rfl, rfl⟩

/-- C8 witness: a failed message under its retry cap with full credentials
and a successful resend makes exactly one network call. -/
theorem retry_message_correct_witness :
    (retryMessage dbR 9 "u" (some integW) (.ok okRes) 100).networkCalls = 1 :=
  ((retry_message_correct dbR 9 "u" (some integW) (.ok okRes) 100 msgF
      (by decide)).2.2 1 "+15550001111" integW rfl (by decide) rfl (by decide)
      (by decide) rfl (by decide) (by decide)).1

/-- C9 counterexample: a decision with null wait-hours leaves next_action_at
holding its previous value instead of clearing it, so the claim's
null-clears-the-field conjunct is false on the code (update_conversation
skips columns whose argument is None). -/
theorem next_action_at_counterexample :
    ((applyDecision dbC9 1 "pending" "hi" none none false 9000).conversations.map
      (fun c => c.nextActionAt) = [some 500]) ∧
    ¬ ((applyDecision dbC9 1 "pending" "hi" none none false
        9000).conversations.map (fun c => c.nextActionAt) = [none]) := by
  decide

/-- C9 (amended): applying a decision sets the conversation's
next_action_at to now plus wait-hours (in seconds) when wait-hours is
non-null, and leaves the field unchanged (not cleared) when wait-hours is
null. -/
theorem next_action_at_amended (db : DB) (cid : Nat)
    (newStatus incomingText : String) (replyText : Option String)
    (afterHours : Option Int) (isClose : Bool) (now : Int) :
    ∀ j, ∀ hj : j < db.conversations.length,
      (db.conversations.get ⟨j, hj⟩).id = cid →
      ∃ hj2 : j < (applyDecision db cid newStatus incomingText replyText
          afterHours isClose now).conversations.length,
        ((applyDecision db cid newStatus incomingText replyText afterHours
          isClose now).conversations.get ⟨j, hj2⟩).nextActionAt =
          (match afterHours with
           | some h => some (now + h * 3600)
           | none => (db.conversations.get ⟨j, hj⟩).nextActionAt) := by
  intro j hj hjc
  have hconvs : (applyDecision db cid newStatus incomingText replyText
      afterHours isClose now).conversations =
      db.conversations.map (fun c =>
        if c.id == cid then
          applyConvUpdate
            { status := some newStatus,
              lastIncomingText := some incomingText,
              lastOutgoingText := replyText,
              nextActionAt := calculateNextActionAt afterHours now,
              lastFollowupAt := some now } now c
        else c) := by
    cases isClose <;> rfl
  have hlen : j < (applyDecision db cid newStatus incomingText replyText
      afterHours isClose now).conversations.length := by
    rw [hconvs, List.length_map]; exact hj
  refine ⟨hlen, ?_⟩
  have hget : (applyDecision db cid newStatus incomingText replyText
      afterHours isClose now).conversations.get ⟨j, hlen⟩ =
      (if (db.conversations.get ⟨j, hj⟩).id == cid then
        applyConvUpdate
          { status := some newStatus,
            lastIncomingText := some incomingText,
            lastOutgoingText := replyText,
            nextActionAt := calculateNextActionAt afterHours now,
            lastFollowupAt := some now } now (db.conversations.get ⟨j, hj⟩)
        else db.conversations.get ⟨j, hj⟩) := by
    simp only [List.get_eq_getElem]
    simp only [hconvs, List.getElem_map]
  rw [hget]
  have hjc2 : db.conversations[j].id = cid := hjc
  cases afterHours with
  | none => simp [hjc2, applyConvUpdate, calculateNextActionAt]
  | some h => simp [hjc2, applyConvUpdate, calculateNextActionAt]

/-- C9 witness: wait-hours of 2 sets next_action_at to now plus 7200
seconds on the matching conversation. -/
theorem next_action_at_amended_witness :
    ∃ h2 : 0 < (applyDecision dbC9 1 "promised" "ok" none (some 2) false
        9000).conversations.length,
      ((applyDecision dbC9 1 "promised" "ok" none (some 2) false
        9000).conversations.get ⟨0, h2⟩).nextActionAt =
        some (9000 + 2 * 3600) :=
  next_action_at_amended dbC9 1 "promised" "ok" none (some 2) false 9000 0
    (by decide) (by decide)

/-- C10: approving a nudge that is linked to a conversation sets the nudge
approved and copies draft_content into approved_content, and additionally
mutates the linked conversation: auto_approved becomes true and its status
becomes the string "approved", which lies outside the conversation status
enum the specification declares. -/
theorem approve_nudge_mutates_conversation (db : DB) (nid : Nat) (uid : String)
    (n0 : Nudge)
    (hfind : db.nudges.find? (fun n => n.id == nid && n.userId == uid) =
      some n0)
    (cid : Nat) (hcid : n0.conversationId = some cid) :
    (∀ j, ∀ hj : j < db.nudges.length,
      (db.nudges.get ⟨j, hj⟩).id = nid →
      (db.nudges.get ⟨j, hj⟩).userId = uid →
      ∃ hj2 : j < (approveNudge db nid uid).nudges.length,
        ((approveNudge db nid uid).nudges.get ⟨j, hj2⟩).status = "approved" ∧
        ((approveNudge db nid uid).nudges.get ⟨j, hj2⟩).approvedContent =
          n0.draftContent)
    ∧
    (∀ j, ∀ hj : j < db.conversations.length,
      (db.conversations.get ⟨j, hj⟩).id = cid →
      (db.conversations.get ⟨j, hj⟩).userId = uid →
      ∃ hj2 : j < (approveNudge db nid uid).conversations.length,
        ((approveNudge db nid uid).conversations.get ⟨j, hj2⟩).status =
          "approved" ∧
        ((approveNudge db nid uid).conversations.get ⟨j, hj2⟩).autoApproved =
          true)
    ∧ "approved" ∉ specConversationStatuses := by
  have hnudges : (approveNudge db nid uid).nudges =
      db.nudges.map (fun n =>
        if n.id == nid && n.userId == uid
        then { n with
          status := "approved",
          approvedContent := n0.draftContent }
        else n) := by
    simp [approveNudge, hfind, hcid]
  have hconvs : (approveNudge db nid uid).conversations =
      db.conversations.map (fun c =>
        if c.id == cid && c.userId == uid
        then { c with status := "approved", autoApproved := true }
        else c) := by
    simp [approveNudge, hfind, hcid]
  refine ⟨?_, ?_, by decide⟩
  · intro j hj hid hu
    have hlen : j < (approveNudge db nid uid).nudges.length := by
      rw [hnudges, List.length_map]; exact hj
    refine ⟨hlen, ?_⟩
    have hget : (approveNudge db nid uid).nudges.get ⟨j, hlen⟩ =
        (if (db.nudges.get ⟨j, hj⟩).id == nid &&
            (db.nudges.get ⟨j, hj⟩).userId == uid
          then { db.nudges.get ⟨j, hj⟩ with
            status := "approved",
            approvedContent := n0.draftContent }
          else db.nudges.get ⟨j, hj⟩) := by
      simp only [List.get_eq_getElem]
      simp only [hnudges, List.getElem_map]
    rw [hget]
    have hid2 : db.nudges[j].id = nid := hid
    have hu2 : db.nudges[j].userId = uid := hu
    simp [hid2, hu2]
  · intro j hj hid hu
    have hlen : j < (approveNudge db nid uid).conversations.length := by
      rw [hconvs, List.length_map]; exact hj
    refine ⟨hlen, ?_⟩
    have hget : (approveNudge db nid uid).conversations.get ⟨j, hlen⟩ =
        (if (db.conversations.get ⟨j, hj⟩).id == cid &&
            (db.conversations.get ⟨j, hj⟩).userId == uid
          then { db.conversations.get ⟨j, hj⟩ with
            status := "approved",
            autoApproved := true }
          else db.conversations.get ⟨j, hj⟩) := by
      simp only [List.get_eq_getElem]
      simp only [hconvs, List.getElem_map]
    rw [hget]
    have hid2 : db.conversations[j].id = cid := hid
    have hu2 : db.conversations[j].userId = uid := hu
    simp [hid2, hu2]

/-- C10 witness: approving the sample nudge marks its conversation approved
with auto_approved set. -/
theorem approve_nudge_mutates_conversation_witness :
    ∃ h2 : 0 < (approveNudge dbW 1 "u").conversations.length,
      ((approveNudge dbW 1 "u").conversations.get ⟨0, h2⟩).status =
        "approved" ∧
      ((approveNudge dbW 1 "u").conversations.get ⟨0, h2⟩).autoApproved =
        true :=
  (approve_nudge_mutates_conversation dbW 1 "u" nudgeW (by decide) 1
    rfl).2.1 0 (by decide) (by decide) (by decide)

end WABrain
